import Mathlib

/-!
Verification of the mesh-cli repository's locally owned behaviour:
credential/token persistence, SIWE login sequencing, SDK initialization
dispatch, and the input handling of the `authorize` and `account-exists`
commands.  Each definition is a shallow embedding of the corresponding
TypeScript source (src/utils/sdk.ts, src/commands/enforcer.ts and the
authorization command module); JavaScript runtime primitives that the
source calls (string operations, `new URL(...).hostname`, environment
truthiness) are embedded alongside.
-/

namespace MeshCli

/-- A JSON value, the result of a successful `JSON.parse`.  Authorization
request payloads are passed through the CLI unchanged as such values. -/
inductive Json where
  | null
  | bool (b : Bool)
  | num (n : Int)
  | str (s : String)
  | arr (elems : List Json)
  | obj (fields : List (String × Json))

/-- The `TokenData` interface of src/utils/sdk.ts: a bearer token together
with its absolute expiry timestamp in epoch milliseconds. -/
structure TokenData where
  token : String
  expiresAt : Int
deriving DecidableEq

/-- The observable state of the credential file `~/.mesh-cli/token.json`
as far as `getToken` distinguishes it: the file is absent
(`fs.existsSync` is false), present but unreadable or not valid JSON
(`readFileSync`/`JSON.parse` throws, caught at line 70), or present and
parsing as a `{ token, expiresAt }` pair. -/
inductive CredFile where
  | absent
  | malformed
  | wellFormed (d : TokenData)
deriving DecidableEq

/-- The filesystem state touched by the token cache: whether the
directory `~/.mesh-cli` exists, and the credential file's contents. -/
structure FsState where
  dirExists : Bool
  file : CredFile
deriving DecidableEq

/-- Embedding of `saveToken(token, expiresIn)` (src/utils/sdk.ts lines
53-61): creates the directory when absent, computes
`expiresAt = Date.now() + expiresIn * 1000` and overwrites the file with
the `{ token, expiresAt }` pair.  `now` is the value of `Date.now()` at
the moment of the call. -/
def saveToken (fs : FsState) (token : String) (expiresIn : Int) (now : Int) : FsState :=
  { dirExists := true
    file := CredFile.wellFormed { token := token, expiresAt := now + expiresIn * 1000 } }

/-- Embedding of `getToken()` (src/utils/sdk.ts lines 63-76): returns the
parsed pair when the file exists, parses, and `data.expiresAt > Date.now()`
holds; returns `null` (here `none`) when the file is absent, when reading
or parsing throws, or when the expiry check fails.  `now` is the value of
`Date.now()` at the moment of the call. -/
def getToken (f : CredFile) (now : Int) : Option TokenData :=
  match f with
  | CredFile.absent => none
  | CredFile.malformed => none
  | CredFile.wellFormed d => if d.expiresAt > now then some d else none

/-- JavaScript `s.startsWith(pre)`, by character-list comparison. -/
def jsStartsWith (s pre : String) : Bool :=
  pre.data.isPrefixOf s.data

/-- JavaScript `s.slice(n)` for a nonnegative index `n`. -/
def jsSlice (s : String) (n : Nat) : String :=
  String.mk (s.data.drop n)

/-- JavaScript `x || d` on an optional environment-variable string:
`undefined` and the empty string are falsy and yield the default. -/
def jsOr (o : Option String) (d : String) : String :=
  match o with
  | none => d
  | some s => if s == "" then d else s

/-- JavaScript truthiness of an optional environment-variable string:
truthy exactly when present and non-empty. -/
def truthy (o : Option String) : Bool :=
  match o with
  | none => false
  | some s => !(s == "")

/-- Helper for `urlHostname`: drop everything up to and including the
first `://` scheme separator. -/
def dropScheme : List Char → List Char
  | ':' :: '/' :: '/' :: rest => rest
  | _ :: rest => dropScheme rest
  | [] => []

/-- Embedding of `new URL(u).hostname` for the http(s) URLs this CLI
uses: the characters after the scheme separator up to the first port,
path, query or fragment delimiter. -/
def urlHostname (u : String) : String :=
  String.mk ((dropScheme u.data).takeWhile
    (fun c => !(c == ':' || c == '/' || c == '?' || c == '#')))

/-- The `DEFAULT_API_URI` constant of src/utils/sdk.ts. -/
def DEFAULT_API_URI : String := "http://localhost:8080"

/-- The chain id of the `sepolia` chain imported from viem/chains, which
`createUnifiedClient` uses as its default chain. -/
def sepoliaChainId : Int := 11155111

/-- The private-key normalization inside `createUnifiedClient`
(src/utils/sdk.ts line 26): remove a leading `0x` if present. -/
def normalizedKey (privateKey : String) : String :=
  if jsStartsWith privateKey "0x" then jsSlice privateKey 2 else privateKey

/-- The argument handed to `privateKeyToAccount` (src/utils/sdk.ts line
28): the normalized key with `0x` re-prepended. -/
def accountKeyArg (privateKey : String) : String :=
  "0x" ++ normalizedKey privateKey

/-- The observable shape of the unified client built by
`createUnifiedClient`: which key string the signing account is derived
from, and which chain the wallet client is created on. -/
structure UnifiedClientModel where
  accountKey : String
  chainId : Int
deriving DecidableEq

/-- Embedding of `createUnifiedClient(privateKey, chain = sepolia)`
(src/utils/sdk.ts lines 24-50): derives the account from the normalized
key and records the chain, which defaults to sepolia. -/
def createUnifiedClient (privateKey : String) (chainId : Int := sepoliaChainId) :
    UnifiedClientModel :=
  { accountKey := accountKeyArg privateKey, chainId := chainId }

/-- The process environment variables consulted by `initSDK`.  `none`
models an unset variable; `some s` a variable set to the string `s`. -/
structure Env where
  API_KEY : Option String
  PRIVATE_KEY : Option String
  API_URI : Option String
deriving DecidableEq

/-- Which initialization path `initSDK` took and with what arguments. -/
inductive SDKInitPath where
  | apiKeyPath (apiKey apiUri : String)
  | privateKeyPath (privateKey apiKey apiUri : String)
deriving DecidableEq

/-- Embedding of `initSDK()` (src/utils/sdk.ts lines 121-133): reads the
environment, takes the API-key path when `API_KEY` is truthy and
`PRIVATE_KEY` is not, the private-key path when `PRIVATE_KEY` is truthy
(with `apiKey || ''` as the secondary key), and otherwise throws. -/
def initSDK (env : Env) : Except String SDKInitPath :=
  let apiUri := jsOr env.API_URI DEFAULT_API_URI
  if truthy env.API_KEY && !truthy env.PRIVATE_KEY then
    Except.ok (SDKInitPath.apiKeyPath (env.API_KEY.getD "") apiUri)
  else if truthy env.PRIVATE_KEY then
    Except.ok (SDKInitPath.privateKeyPath (env.PRIVATE_KEY.getD "")
      (if truthy env.API_KEY then env.API_KEY.getD "" else "") apiUri)
  else
    Except.error "Either API_KEY or PRIVATE_KEY must be provided in environment variables"

/-- The SIWE message parameters built by `loginWithSIWE`
(src/utils/sdk.ts lines 143-151). -/
structure SiweParams where
  domain : String
  address : String
  uri : String
  version : String
  chainId : Int
  nonce : String
  issuedAt : Int
deriving DecidableEq

/-- The remote service and signer as `loginWithSIWE` observes them: the
nonce endpoint keyed by account address, the message signer producing a
(message, signature) pair from the SIWE parameters, and the
authentication endpoint returning a bearer token.  Each call may throw. -/
structure Remote where
  requestNonce : String → Except String String
  signSiwe : SiweParams → Except String (String × String)
  authenticateSiwe : String → String → Except String String

/-- The externally visible steps taken by `loginWithSIWE`, in order of
occurrence. -/
inductive Event where
  | requestNonce (addr : String)
  | signMessage (p : SiweParams)
  | authenticate (message signature : String)
  | saveToken (token : String) (ttlSeconds : Int)
deriving DecidableEq

/-- The token validity window passed to `saveToken` by `loginWithSIWE`
(src/utils/sdk.ts line 157): `30 * 24 * 60 * 60` seconds. -/
def TTL_SECONDS : Int := 30 * 24 * 60 * 60

/-- Embedding of `loginWithSIWE(mesh)` (src/utils/sdk.ts lines 136-160):
request a nonce keyed by the signer's address; build the SIWE parameters
with the hostname of `process.env.API_URI || DEFAULT_API_URI` as domain,
version `"1"`, chainId `1`, the received nonce and the current date; sign
them; submit message and signature; on acceptance save the returned token
with a 30-day expiry.  A thrown error at any step propagates immediately.
`nowIssued` and `nowSaved` are the clock readings at message construction
and at the `saveToken` call; the result carries the final filesystem
state and the trace of steps performed. -/
def loginWithSIWE (remote : Remote) (apiUriEnv : Option String) (address : String)
    (nowIssued nowSaved : Int) (fs : FsState) :
    Except String String × FsState × List Event :=
  match remote.requestNonce address with
  | Except.error e => (Except.error e, fs, [Event.requestNonce address])
  | Except.ok nonce =>
    let apiUri := jsOr apiUriEnv DEFAULT_API_URI
    let p : SiweParams :=
      { domain := urlHostname apiUri
        address := address
        uri := apiUri
        version := "1"
        chainId := 1
        nonce := nonce
        issuedAt := nowIssued }
    match remote.signSiwe p with
    | Except.error e => (Except.error e, fs, [Event.requestNonce address, Event.signMessage p])
    | Except.ok (message, signature) =>
      match remote.authenticateSiwe message signature with
      | Except.error e =>
        (Except.error e, fs,
          [Event.requestNonce address, Event.signMessage p,
            Event.authenticate message signature])
      | Except.ok token =>
        (Except.ok token, saveToken fs token TTL_SECONDS nowSaved,
          [Event.requestNonce address, Event.signMessage p,
            Event.authenticate message signature,
            Event.saveToken token TTL_SECONDS])

/-- The options of the `auth authorize` / `auth authorize-batch` commands
as the action sees them.  For `--file`, the path is replaced by the
outcome of `fs.readFileSync` on it (`none` when reading throws); `json`
is the inline `--json` string when given. -/
structure AuthorizeOptions where
  file : Option (Option String)
  json : Option String

/-- Embedding of the input handling of the `auth authorize` action
(src/unnamed/part_002 lines 30-62): prefer `--file`, reading and parsing
it; otherwise parse the `--json` string; otherwise fail.  The result is
the request payload passed to `sdk.enforcer.validateAuthorization`
(`none` when the action returns early without calling it).  `parse`
stands for `JSON.parse`, `none` meaning it throws. -/
def authorizeRequestPayload (parse : String → Option Json)
    (opts : AuthorizeOptions) : Option Json :=
  match opts.file with
  | some readResult =>
    match readResult with
    | some contents => parse contents
    | none => none
  | none =>
    match opts.json with
    | some s => parse s
    | none => none

/-- Embedding of the input handling of the `auth authorize-batch` action
(src/unnamed/part_002 lines 97-129), which is line-for-line the same as
the single-request action; the result is the payload passed to
`sdk.enforcer.validateAuthorizations`. -/
def authorizeBatchRequestPayload (parse : String → Option Json)
    (opts : AuthorizeOptions) : Option Json :=
  match opts.file with
  | some readResult =>
    match readResult with
    | some contents => parse contents
    | none => none
  | none =>
    match opts.json with
    | some s => parse s
    | none => none

/-- The externally visible steps of the `auth account-exists` action. -/
inductive AEEvent where
  | initSDKOk
  | errorReported (msg : String)
  | accountExistsCall (addr : String)
  | accountDetailCall
deriving DecidableEq

/-- Embedding of the `auth account-exists` action
(src/commands/enforcer.ts lines 428-470): initialize the SDK (a thrown
error is caught and reported); reject an address not starting with `0x`
and return; otherwise call the remote `accountExists` endpoint with the
address, report a thrown error, and on an affirmative answer additionally
fetch the account detail. -/
def accountExistsAction (env : Env) (remoteExists : String → Except String Bool)
    (address : String) : List AEEvent :=
  match initSDK env with
  | Except.error e => [AEEvent.errorReported e]
  | Except.ok _ =>
    if !(jsStartsWith address "0x") then
      [AEEvent.initSDKOk, AEEvent.errorReported "Error: Address must start with 0x"]
    else
      match remoteExists address with
      | Except.error e =>
        [AEEvent.initSDKOk, AEEvent.accountExistsCall address, AEEvent.errorReported e]
      | Except.ok exists_ =>
        if exists_ then
          [AEEvent.initSDKOk, AEEvent.accountExistsCall address, AEEvent.accountDetailCall]
        else
          [AEEvent.initSDKOk, AEEvent.accountExistsCall address]

/-- A remote service on which every step of the SIWE sequence succeeds,
used to instantiate the login theorems on concrete inputs. -/
def remoteOk : Remote :=
  { requestNonce := fun _ => Except.ok "n0"
    signSiwe := fun _ => Except.ok ("m0", "s0")
    authenticateSiwe := fun _ _ => Except.ok "tok0" }

/-- C1: for a credential file parsing as a `{ token, expiresAt }` pair,
`getToken` returns the stored pair iff `expiresAt` is strictly greater
than the current time; an expiry at or before the current time yields
`null`. -/
theorem getToken_wellFormed_iff (d : TokenData) (now : Int) :
    (getToken (CredFile.wellFormed d) now = some d ↔ d.expiresAt > now) ∧
    (d.expiresAt ≤ now → getToken (CredFile.wellFormed d) now = none) := by
  constructor
  · constructor
    · intro h
      by_contra hgt
      simp [getToken, hgt] at h
    · intro h
      simp [getToken, h]
  · intro h
    have hgt : ¬ d.expiresAt > now := by omega
    simp [getToken, hgt]

/-- Witness for C1 at a concrete stored pair and two concrete clock
readings, one before and one after the expiry. -/
theorem getToken_wellFormed_iff_witness :
    getToken (CredFile.wellFormed ⟨"t", 10⟩) 5 = some ⟨"t", 10⟩ ∧
    getToken (CredFile.wellFormed ⟨"t", 10⟩) 12 = none :=
  ⟨(getToken_wellFormed_iff ⟨"t", 10⟩ 5).1.mpr (by decide),
   (getToken_wellFormed_iff ⟨"t", 10⟩ 12).2 (by decide)⟩

/-- C4: a malformed credential file behaves identically to an absent one
under `getToken`: both yield `null` and no error escapes. -/
theorem getToken_malformed_eq_absent (now : Int) :
    getToken CredFile.malformed now = getToken CredFile.absent now ∧
    getToken CredFile.malformed now = none :=
  ⟨rfl, rfl⟩

/-- C3: `saveToken` sets `expiresAt` to the save-time clock plus
`expiresIn * 1000`, makes the directory exist, and its result is
independent of the prior filesystem state (any prior file content is
overwritten); at `expiresIn = 2592000` the expiry is the save time plus
`2592000000` milliseconds. -/
theorem saveToken_spec (fs fs' : FsState) (token : String) (expiresIn now : Int) :
    saveToken fs token expiresIn now =
      { dirExists := true
        file := CredFile.wellFormed { token := token, expiresAt := now + expiresIn * 1000 } } ∧
    saveToken fs token expiresIn now = saveToken fs' token expiresIn now ∧
    (saveToken fs token expiresIn now).dirExists = true ∧
    (saveToken fs token 2592000 now).file =
      CredFile.wellFormed { token := token, expiresAt := now + 2592000000 } := by
  refine ⟨rfl, rfl, rfl, ?_⟩
  norm_num [saveToken]

/-- C2: when `loginWithSIWE` succeeds with token `t`, a `getToken` read
performed while the clock is still strictly before the stored expiry
(save time plus 30 days in milliseconds) returns exactly the saved pair,
whose token is `t`. -/
theorem loginWithSIWE_roundTrip (remote : Remote) (apiUriEnv : Option String)
    (address : String) (nowIssued nowSaved : Int) (fs : FsState) (t : String) (now : Int)
    (hok : (loginWithSIWE remote apiUriEnv address nowIssued nowSaved fs).1 = Except.ok t)
    (hnow : now < nowSaved + 2592000 * 1000) :
    getToken (loginWithSIWE remote apiUriEnv address nowIssued nowSaved fs).2.1.file now =
      some { token := t, expiresAt := nowSaved + 2592000 * 1000 } := by
  unfold loginWithSIWE at hok ⊢
  cases h1 : remote.requestNonce address with
  | error e => simp [h1] at hok
  | ok nonce =>
    simp only [h1] at hok ⊢
    cases h2 : remote.signSiwe _ with
    | error e => simp [h2] at hok
    | ok pr =>
      cases pr with
      | mk message signature =>
        simp only [h2] at hok ⊢
        cases h3 : remote.authenticateSiwe message signature with
        | error e => simp [h3] at hok
        | ok token =>
          simp only [h3] at hok ⊢
          cases hok
          have : nowSaved + TTL_SECONDS * 1000 > now := by
            simp only [TTL_SECONDS]
            omega
          simp [saveToken, getToken, this, TTL_SECONDS]
          omega

/-- Witness for C2: the full success run of the SIWE sequence at a
concrete remote, followed by a cache read before the expiry. -/
theorem loginWithSIWE_roundTrip_witness :
    getToken (loginWithSIWE remoteOk none "0xabc" 0 0 ⟨false, CredFile.absent⟩).2.1.file 5 =
      some { token := "tok0", expiresAt := 0 + 2592000 * 1000 } :=
  loginWithSIWE_roundTrip remoteOk none "0xabc" 0 0 ⟨false, CredFile.absent⟩ "tok0" 5
    rfl (by decide)

/-- C5: a run of `loginWithSIWE` performs its steps strictly in the
order nonce request (keyed by the signer's address), message signing
(over parameters carrying version `"1"` and the received nonce),
submission, and — only on acceptance — a save with the 30-day window
`TTL_SECONDS = 2592000`; on failure at any step the run aborts with the
filesystem (hence the cached credential) unchanged and no save step in
its trace. -/
theorem loginWithSIWE_sequence (remote : Remote) (apiUriEnv : Option String)
    (address : String) (nowIssued nowSaved : Int) (fs : FsState) :
    TTL_SECONDS = 2592000 ∧
    (∀ t, (loginWithSIWE remote apiUriEnv address nowIssued nowSaved fs).1 = Except.ok t →
      ∃ nonce message signature,
        remote.requestNonce address = Except.ok nonce ∧
        (loginWithSIWE remote apiUriEnv address nowIssued nowSaved fs).2.2 =
          [Event.requestNonce address,
            Event.signMessage
              { domain := urlHostname (jsOr apiUriEnv DEFAULT_API_URI)
                address := address
                uri := jsOr apiUriEnv DEFAULT_API_URI
                version := "1"
                chainId := 1
                nonce := nonce
                issuedAt := nowIssued },
            Event.authenticate message signature,
            Event.saveToken t TTL_SECONDS] ∧
        (loginWithSIWE remote apiUriEnv address nowIssued nowSaved fs).2.1 =
          saveToken fs t TTL_SECONDS nowSaved) ∧
    (∀ e, (loginWithSIWE remote apiUriEnv address nowIssued nowSaved fs).1 = Except.error e →
      (loginWithSIWE remote apiUriEnv address nowIssued nowSaved fs).2.1 = fs ∧
      ∀ tok ttl, Event.saveToken tok ttl ∉
        (loginWithSIWE remote apiUriEnv address nowIssued nowSaved fs).2.2) := by
  refine ⟨rfl, ?_, ?_⟩
  · intro t ht
    unfold loginWithSIWE at ht ⊢
    cases h1 : remote.requestNonce address with
    | error e1 => simp [h1] at ht
    | ok nonce =>
      simp only [h1] at ht ⊢
      cases h2 : remote.signSiwe _ with
      | error e2 => simp [h2] at ht
      | ok pr =>
        cases pr with
        | mk message signature =>
          simp only [h2] at ht ⊢
          cases h3 : remote.authenticateSiwe message signature with
          | error e3 => simp [h3] at ht
          | ok token =>
            simp only [h3] at ht ⊢
            cases ht
            exact ⟨nonce, message, signature, rfl, rfl, rfl⟩
  · intro e he
    unfold loginWithSIWE at he ⊢
    cases h1 : remote.requestNonce address with
    | error e1 => simp [h1]
    | ok nonce =>
      simp only [h1] at he ⊢
      cases h2 : remote.signSiwe _ with
      | error e2 => simp [h2]
      | ok pr =>
        cases pr with
        | mk message signature =>
          simp only [h2] at he ⊢
          cases h3 : remote.authenticateSiwe message signature with
          | error e3 => simp [h3]
          | ok token => simp [h3] at he

/-- Witness for C5: the success branch of the sequence theorem at a
concrete remote whose steps all succeed. -/
theorem loginWithSIWE_sequence_witness :
    ∃ nonce message signature,
      remoteOk.requestNonce "0xabc" = Except.ok nonce ∧
      (loginWithSIWE remoteOk none "0xabc" 0 0 ⟨false, CredFile.absent⟩).2.2 =
        [Event.requestNonce "0xabc",
          Event.signMessage
            { domain := urlHostname (jsOr none DEFAULT_API_URI)
              address := "0xabc"
              uri := jsOr none DEFAULT_API_URI
              version := "1"
              chainId := 1
              nonce := nonce
              issuedAt := 0 },
          Event.authenticate message signature,
          Event.saveToken "tok0" TTL_SECONDS] ∧
      (loginWithSIWE remoteOk none "0xabc" 0 0 ⟨false, CredFile.absent⟩).2.1 =
        saveToken ⟨false, CredFile.absent⟩ "tok0" TTL_SECONDS 0 :=
  (loginWithSIWE_sequence remoteOk none "0xabc" 0 0 ⟨false, CredFile.absent⟩).2.1 "tok0" rfl

/-- C10: every SIWE message constructed during a `loginWithSIWE` run has
chainId 1, version `"1"`, and as domain the hostname of the effective
API URI (`API_URI` or the default `http://localhost:8080`), even though
the wallet client is created on the default sepolia chain, whose id is
not 1. -/
theorem siweMessage_constants (remote : Remote) (apiUriEnv : Option String)
    (address : String) (nowIssued nowSaved : Int) (fs : FsState) (pk : String) :
    (∀ p, Event.signMessage p ∈
        (loginWithSIWE remote apiUriEnv address nowIssued nowSaved fs).2.2 →
      p.chainId = 1 ∧ p.version = "1" ∧
      p.domain = urlHostname (jsOr apiUriEnv DEFAULT_API_URI)) ∧
    (createUnifiedClient pk).chainId = sepoliaChainId ∧
    sepoliaChainId ≠ 1 := by
  refine ⟨?_, rfl, by decide⟩
  intro p hp
  unfold loginWithSIWE at hp
  cases h1 : remote.requestNonce address with
  | error e1 =>
    simp [h1] at hp
  | ok nonce =>
    simp only [h1] at hp
    cases h2 : remote.signSiwe
        { domain := urlHostname (jsOr apiUriEnv DEFAULT_API_URI)
          address := address
          uri := jsOr apiUriEnv DEFAULT_API_URI
          version := "1"
          chainId := 1
          nonce := nonce
          issuedAt := nowIssued } with
    | error e2 =>
      simp only [h2] at hp
      simp at hp
      subst hp
      exact ⟨rfl, rfl, rfl⟩
    | ok pr =>
      cases pr with
      | mk message signature =>
        simp only [h2] at hp
        cases h3 : remote.authenticateSiwe message signature with
        | error e3 =>
          simp only [h3] at hp
          simp at hp
          subst hp
          exact ⟨rfl, rfl, rfl⟩
        | ok token =>
          simp only [h3] at hp
          simp at hp
          subst hp
          exact ⟨rfl, rfl, rfl⟩

/-- Witness for C10: the constants hold for the message signed in a
concrete successful run. -/
theorem siweMessage_constants_witness :
    SiweParams.chainId
        { domain := urlHostname (jsOr none DEFAULT_API_URI)
          address := "0xabc"
          uri := jsOr none DEFAULT_API_URI
          version := "1"
          chainId := 1
          nonce := "n0"
          issuedAt := 0 } = 1 ∧
    SiweParams.version
        { domain := urlHostname (jsOr none DEFAULT_API_URI)
          address := "0xabc"
          uri := jsOr none DEFAULT_API_URI
          version := "1"
          chainId := 1
          nonce := "n0"
          issuedAt := 0 } = "1" ∧
    SiweParams.domain
        { domain := urlHostname (jsOr none DEFAULT_API_URI)
          address := "0xabc"
          uri := jsOr none DEFAULT_API_URI
          version := "1"
          chainId := 1
          nonce := "n0"
          issuedAt := 0 } = urlHostname (jsOr none DEFAULT_API_URI) :=
  (siweMessage_constants remoteOk none "0xabc" 0 0 ⟨false, CredFile.absent⟩ "k").1
    _ (by decide)

/-- C6: when a file's contents and an inline string parse to the same
JSON object, the `--file` and `--json` input modes of `auth authorize`
hand the same request payload to `validateAuthorization`, and likewise
for `auth authorize-batch` and `validateAuthorizations`. -/
theorem authorize_file_json_agree (parse : String → Option Json)
    (fileContents s : String) (j : Json)
    (hf : parse fileContents = some j) (hs : parse s = some j) :
    authorizeRequestPayload parse ⟨some (some fileContents), none⟩ =
      authorizeRequestPayload parse ⟨none, some s⟩ ∧
    authorizeRequestPayload parse ⟨some (some fileContents), none⟩ = some j ∧
    authorizeBatchRequestPayload parse ⟨some (some fileContents), none⟩ =
      authorizeBatchRequestPayload parse ⟨none, some s⟩ ∧
    authorizeBatchRequestPayload parse ⟨some (some fileContents), none⟩ = some j := by
  simp [authorizeRequestPayload, authorizeBatchRequestPayload, hf, hs]

/-- Witness for C6 at a concrete parse function under which two distinct
strings encode the same JSON value. -/
theorem authorize_file_json_agree_witness :
    authorizeRequestPayload
        (fun s => if s == "A" || s == "B" then some (Json.num 1) else none)
        ⟨some (some "A"), none⟩ =
      authorizeRequestPayload
        (fun s => if s == "A" || s == "B" then some (Json.num 1) else none)
        ⟨none, some "B"⟩ ∧
    authorizeRequestPayload
        (fun s => if s == "A" || s == "B" then some (Json.num 1) else none)
        ⟨some (some "A"), none⟩ = some (Json.num 1) ∧
    authorizeBatchRequestPayload
        (fun s => if s == "A" || s == "B" then some (Json.num 1) else none)
        ⟨some (some "A"), none⟩ =
      authorizeBatchRequestPayload
        (fun s => if s == "A" || s == "B" then some (Json.num 1) else none)
        ⟨none, some "B"⟩ ∧
    authorizeBatchRequestPayload
        (fun s => if s == "A" || s == "B" then some (Json.num 1) else none)
        ⟨some (some "A"), none⟩ = some (Json.num 1) :=
  authorize_file_json_agree
    (fun s => if s == "A" || s == "B" then some (Json.num 1) else none)
    "A" "B" (Json.num 1) rfl rfl

/-- C7: the `account-exists` action never calls the remote
`accountExists` endpoint when the supplied address does not start with
`0x`; an error is reported instead and the handler returns. -/
theorem accountExists_invalid_address_local (env : Env)
    (remoteExists : String → Except String Bool) (address : String)
    (h : jsStartsWith address "0x" = false) :
    (∀ a, AEEvent.accountExistsCall a ∉ accountExistsAction env remoteExists address) ∧
    (∃ m, AEEvent.errorReported m ∈ accountExistsAction env remoteExists address) := by
  unfold accountExistsAction
  cases hinit : initSDK env with
  | error e =>
    exact ⟨fun a => by simp, ⟨e, by simp⟩⟩
  | ok p =>
    simp only [h]
    exact ⟨fun a => by simp, ⟨"Error: Address must start with 0x", by simp⟩⟩

/-- Witness for C7 at a concrete environment and a concrete address
lacking the `0x` prefix. -/
theorem accountExists_invalid_address_local_witness :
    (∀ a, AEEvent.accountExistsCall a ∉
      accountExistsAction ⟨some "k", none, none⟩ (fun _ => Except.ok true) "abc") ∧
    (∃ m, AEEvent.errorReported m ∈
      accountExistsAction ⟨some "k", none, none⟩ (fun _ => Except.ok true) "abc") :=
  accountExists_invalid_address_local ⟨some "k", none, none⟩
    (fun _ => Except.ok true) "abc" (by decide)

/-- C8 counterexample: the claim "initSDK throws iff neither API_KEY nor
PRIVATE_KEY is set" is false on the code: with API_KEY set to the empty
string and PRIVATE_KEY unset, `initSDK` throws although API_KEY is set,
because JavaScript truthiness treats the empty string as falsy. -/
theorem initSDK_claim_counterexample :
    ¬ (∀ env : Env, (∃ e, initSDK env = Except.error e) ↔
        (env.API_KEY.isSome = false ∧ env.PRIVATE_KEY.isSome = false)) := by
  intro hclaim
  have h := (hclaim ⟨some "", none, none⟩).mp ⟨_, rfl⟩
  simp at h

/-- C8 amended: `initSDK` throws iff neither API_KEY nor PRIVATE_KEY is
set to a non-empty string; when PRIVATE_KEY is non-empty the private-key
path is taken (with `apiKey || ''` as secondary key) even if API_KEY is
also set; and the API-key path is taken exactly when API_KEY is
non-empty and PRIVATE_KEY is empty or unset. -/
theorem initSDK_paths (env : Env) :
    ((∃ e, initSDK env = Except.error e) ↔
      (truthy env.API_KEY = false ∧ truthy env.PRIVATE_KEY = false)) ∧
    (truthy env.PRIVATE_KEY = true →
      initSDK env = Except.ok (SDKInitPath.privateKeyPath (env.PRIVATE_KEY.getD "")
        (if truthy env.API_KEY then env.API_KEY.getD "" else "")
        (jsOr env.API_URI DEFAULT_API_URI))) ∧
    ((∃ k u, initSDK env = Except.ok (SDKInitPath.apiKeyPath k u)) ↔
      (truthy env.API_KEY = true ∧ truthy env.PRIVATE_KEY = false)) := by
  unfold initSDK
  cases hA : truthy env.API_KEY <;> cases hP : truthy env.PRIVATE_KEY <;> simp

/-- Witness for C8: the private-key path is taken when both keys are
set and non-empty, and the throw case holds when both are absent. -/
theorem initSDK_paths_witness :
    initSDK ⟨some "ak", some "pk", none⟩ =
      Except.ok (SDKInitPath.privateKeyPath "pk"
        (if truthy (some "ak") then (some "ak").getD "" else "")
        (jsOr none DEFAULT_API_URI)) ∧
    (∃ e, initSDK ⟨none, none, none⟩ = Except.error e) :=
  ⟨(initSDK_paths ⟨some "ak", some "pk", none⟩).2.1 rfl,
   (initSDK_paths ⟨none, none, none⟩).1.mpr (by decide)⟩

/-- C9: account derivation is invariant under a missing `0x` prefix:
for a key not beginning with `0x`, the string handed to
`privateKeyToAccount` — and hence the derived signing account — is the
same for the bare key and the `0x`-prefixed key. -/
theorem accountKeyArg_prefix_invariant (k : String)
    (h : jsStartsWith k "0x" = false) :
    accountKeyArg ("0x" ++ k) = accountKeyArg k ∧
    (createUnifiedClient ("0x" ++ k)).accountKey = (createUnifiedClient k).accountKey := by
  cases k with
  | mk d =>
    have hd : ("0x" ++ String.mk d).data = '0' :: 'x' :: d := rfl
    have hpre : jsStartsWith ("0x" ++ String.mk d) "0x" = true := by
      simp [jsStartsWith, List.isPrefixOf]
    have h2 : normalizedKey ("0x" ++ String.mk d) = String.mk d := by
      simp [normalizedKey, hpre, jsSlice, hd]
    have h4 : normalizedKey (String.mk d) = String.mk d := by
      simp [normalizedKey, h]
    constructor
    · simp [accountKeyArg, h2, h4]
    · simp [createUnifiedClient, accountKeyArg, h2, h4]

/-- Witness for C9 at a concrete unprefixed key. -/
theorem accountKeyArg_prefix_invariant_witness :
    accountKeyArg ("0x" ++ "abc") = accountKeyArg "abc" ∧
    (createUnifiedClient ("0x" ++ "abc")).accountKey =
      (createUnifiedClient "abc").accountKey :=
  accountKeyArg_prefix_invariant "abc" (by decide)

end MeshCli
